import Mathlib

/-!
Shallow embedding of the autonomous grid-monitor agent
(source: backend/agent.py) and proofs about its behaviour.

Modelling conventions:
* Python floats are modelled as real numbers.
* Python dicts with optional keys are modelled as structures whose
  optional fields have type `Option _`; the Python idiom
  `d.get(key, default)` becomes `field.getD default`.
* Purely presentational fields of an Issue (the interpolated `reason`
  string and the heterogeneous `metric_snapshots` display map) are not
  modelled; no statement below refers to them.
* File-system effects of state loading are modelled by an inductive
  `StateFile` describing the three observable situations (missing file,
  unreadable or invalid file, valid file).
* The rating-engine collaborator (`calculator.calculate_all_line_ratings`)
  is an explicit functional parameter returning `Except String GridData`;
  a `.error` value models the engine raising an exception.
* Timestamps (`datetime.utcnow().isoformat()`) are opaque strings passed
  in as parameters.
-/

namespace GridAgent

noncomputable section

/-- One line record from the grid snapshot (`current_data['lines'][k]`).
`name` is accessed with mandatory indexing in the source; the numeric
fields are read with `.get(key, 0)` and are therefore optional. -/
structure Line where
  name : String
  loading_pct : Option ℝ
  rating_mva : Option ℝ
  flow_mva : Option ℝ
  margin_mva : Option ℝ

/-- The `summary` dict of a snapshot; only `avg_loading` is ever read by
the agent, via `.get('avg_loading', 0)`. -/
structure Summary where
  avg_loading : Option ℝ
  max_loading : Option ℝ

/-- The snapshot argument of `monitor_grid_state` (`current_data`). -/
structure GridData where
  lines : List Line
  summary : Summary

/-- A history entry appended by `monitor_grid_state`. -/
structure Snapshot where
  timestamp : String
  summary : Summary
  line_count : ℕ

/-- The `thresholds` dict of `AgentState`; all five keys are present from
construction on (the source stores `historical_window` as a float and
converts with `int(...)` at the use site). -/
structure Thresholds where
  high_loading : ℝ
  critical_loading : ℝ
  trend_slope_threshold : ℝ
  rating_decline_threshold : ℝ
  historical_window : ℝ

/-- Operator feedback passed to `learn_from_outcomes`; `result` is read
with `.get('result', 'unknown')`, `success` with `.get('success', False)`.
The `metrics` and `notes` keys are never read and are not modelled. -/
structure Feedback where
  result : Option String
  success : Option Bool

/-- An entry of `action_history`. -/
structure FeedbackEntry where
  action_id : String
  timestamp : String
  feedback : Feedback

/-- Persistent agent state (`AgentState` dataclass); `last_updated` is a
wall-clock field never read by the agent logic and is not modelled. -/
structure AgentState where
  history : List Snapshot
  action_history : List FeedbackEntry
  thresholds : Thresholds
  version : String

/-- A recommended action embedded in an Issue. -/
structure RecommendedAction where
  action : String
  estimated_mva_change : ℝ
  estimated_pct_change : ℝ
  reasoning : String
  confidence : ℝ

/-- A detected issue as returned by `monitor_grid_state`. -/
structure Issue where
  id : String
  severity : String
  affected_lines : List String
  timestamp : String
  confidence : ℝ
  recommended_actions : List RecommendedAction

/-- A recommendation produced by `generate_recommendations`;
`estimated_impact` is flattened into its two components. -/
structure Recommendation where
  id : String
  priority : ℕ
  action : String
  impact_mva : ℝ
  impact_loading_pct : ℝ
  confidence : ℝ
  justification : String

/-- Default thresholds of a fresh `AgentState`. -/
def defaultThresholds : Thresholds :=
  { high_loading := 90
    critical_loading := 100
    trend_slope_threshold := 5
    rating_decline_threshold := 10
    historical_window := 10 }

/-- A fresh `AgentState()` with empty histories and default thresholds. -/
def defaultAgentState : AgentState :=
  { history := []
    action_history := []
    thresholds := defaultThresholds
    version := "1.0.0" }

/-- Sum of a list of reals (Python `sum`). -/
def sumList (l : List ℝ) : ℝ := l.foldr (fun a b => a + b) 0

/-- Mean of a list of reals (`np.mean`). -/
def meanList (l : List ℝ) : ℝ := sumList l / l.length

/-- Population standard deviation (`np.std`, ddof 0). -/
def stdList (l : List ℝ) : ℝ :=
  Real.sqrt (sumList (l.map (fun x => (x - meanList l) ^ 2)) / l.length)

/-- Python slice `l[-w:]` for a nonnegative `w`: the last `w` elements,
except that `w = 0` yields the whole list (`l[-0:] = l[0:]`). -/
def pyLastSlice (l : List α) (w : ℕ) : List α :=
  if w = 0 then l else l.drop (l.length - w)

/-- Python slice `l[:k]` for an integer `k` (negative `k` counts from the
end, clamped at zero). -/
def pyTake (l : List α) (k : ℤ) : List α :=
  if 0 ≤ k then l.take k.toNat else l.take ((l.length : ℤ) + k).toNat

/-- Python `int(x)` for the nonnegative reals stored in `thresholds`
(truncation towards zero). -/
def pyInt (x : ℝ) : ℕ := ⌊x⌋₊

/-- Index of the first element equal to `a` (Python `list.index`; the
element is always present at every call site in the source). -/
def listIndex [DecidableEq α] : List α → α → ℕ
  | [], _ => 0
  | b :: t, a => if a = b then 0 else listIndex t a + 1

/-- Mirrors `_generate_actions_for_overload(lines, critical)`. -/
def generateActionsForOverload (lines : List Line) (critical : Bool) :
    List RecommendedAction :=
  if critical then
    [ { action := "Immediate load shedding or line switching"
        estimated_mva_change :=
          -(sumList (lines.map
              (fun l => l.flow_mva.getD 0 - l.rating_mva.getD 0))) * 0.3
        estimated_pct_change := -20.0
        reasoning :=
          "Critical overload requires immediate action to prevent equipment damage"
        confidence := 0.95 },
      { action := "Emergency generation redispatch"
        estimated_mva_change :=
          -(sumList (lines.map (fun l => |l.margin_mva.getD 0|))) * 0.5
        estimated_pct_change := -15.0
        reasoning := "Redistribute power flow to relieve stressed lines"
        confidence := 0.85 } ]
  else
    [ { action := "Prepare contingency plans and increase monitoring"
        estimated_mva_change := 0
        estimated_pct_change := 0
        reasoning :=
          "High loading indicates potential for overload with minor changes"
        confidence := 0.90 },
      { action := "Consider preemptive generation adjustment"
        estimated_mva_change :=
          -(sumList (lines.map (fun l => l.flow_mva.getD 0 * 0.1)))
        estimated_pct_change := -10.0
        reasoning := "Small adjustments now can prevent critical issues later"
        confidence := 0.75 } ]

/-- Lines with `loading_pct >= critical_loading` (the `critical_lines`
comprehension). -/
def criticalBucket (th : Thresholds) (lines : List Line) : List Line :=
  lines.filter (fun l => decide (l.loading_pct.getD 0 ≥ th.critical_loading))

/-- Lines with `high_loading <= loading_pct < critical_loading`
(the `high_stress_lines` comprehension). -/
def highBucket (th : Thresholds) (lines : List Line) : List Line :=
  lines.filter (fun l =>
    decide (th.high_loading ≤ l.loading_pct.getD 0 ∧
      l.loading_pct.getD 0 < th.critical_loading))

/-- The critical-overload Issue built when `critical_lines` is non-empty. -/
def mkCriticalIssue (th : Thresholds) (lines : List Line) (ts : String) :
    Issue :=
  { id := "critical_loading_" ++ ts
    severity := "critical"
    affected_lines := (criticalBucket th lines).map Line.name
    timestamp := ts
    confidence := 1.0
    recommended_actions :=
      generateActionsForOverload (criticalBucket th lines) true }

/-- The high-loading Issue built when `high_stress_lines` is non-empty. -/
def mkHighIssue (th : Thresholds) (lines : List Line) (ts : String) : Issue :=
  { id := "high_loading_" ++ ts
    severity := "high"
    affected_lines := (highBucket th lines).map Line.name
    timestamp := ts
    confidence := 1.0
    recommended_actions :=
      generateActionsForOverload (highBucket th lines) false }

/-- Issue 1 of `monitor_grid_state`: one Issue per non-empty loading
bucket, critical first. -/
def overloadIssues (th : Thresholds) (lines : List Line) (ts : String) :
    List Issue :=
  (if (criticalBucket th lines).isEmpty then [] else [mkCriticalIssue th lines ts])
    ++ (if (highBucket th lines).isEmpty then [] else [mkHighIssue th lines ts])

/-- Ordinary-least-squares slope of `ys` against index positions
(`np.polyfit(x, y, 1)[0]` with `x = 0, 1, ...`). -/
def olsSlope (ys : List ℝ) : ℝ :=
  let n : ℝ := ys.length
  let xs : List ℝ := (List.range ys.length).map (fun i => (i : ℝ))
  let sx := sumList xs
  let sy := sumList ys
  let sxy := sumList (List.zipWith (fun a b => a * b) xs ys)
  let sxx := sumList (xs.map (fun a => a ^ 2))
  (n * sxy - sx * sy) / (n * sxx - sx ^ 2)

/-- The `avg_loading` read from a history entry
(`h.get('summary', {}).get('avg_loading', 0)`). -/
def snapAvg (h : Snapshot) : ℝ := h.summary.avg_loading.getD 0

/-- Mirrors `_detect_loading_trend` (called on the post-append history). -/
def detectLoadingTrend (history : List Snapshot) (th : Thresholds)
    (ts : String) : Option Issue :=
  if history.length < 3 then none
  else
    let recent := (pyLastSlice history 5).map snapAvg
    if recent.length < 3 then none
    else
      let slope := olsSlope recent
      if slope > th.trend_slope_threshold then
        let conf := min 1.0 (slope / (th.trend_slope_threshold * 2))
        some
          { id := "loading_trend_" ++ ts
            severity := "medium"
            affected_lines := ["system-wide"]
            timestamp := ts
            confidence := conf
            recommended_actions :=
              [ { action :=
                    "Review load forecast and adjust generation schedule"
                  estimated_mva_change := -slope * 10
                  estimated_pct_change := -slope
                  reasoning :=
                    "Proactive adjustment can prevent future overloads"
                  confidence := conf } ] }
      else none

/-- Mirrors `_detect_rating_decline` (called on the post-append history;
`history[-2]` is the entry before the current snapshot). -/
def detectRatingDecline (history : List Snapshot) (d : GridData)
    (th : Thresholds) (ts : String) : Option Issue :=
  if history.length < 2 then none
  else
    let prev_avg :=
      match history.get? (history.length - 2) with
      | none => 0
      | some h => snapAvg h
    let curr_avg := d.summary.avg_loading.getD 0
    if curr_avg - prev_avg > th.rating_decline_threshold then
      let conf :=
        min 1.0 ((curr_avg - prev_avg) / (th.rating_decline_threshold * 2))
      some
        { id := "rating_decline_" ++ ts
          severity := "medium"
          affected_lines := ["system-wide"]
          timestamp := ts
          confidence := conf
          recommended_actions :=
            [ { action :=
                  "Monitor weather forecast and prepare for further rating reductions"
                estimated_mva_change := 0
                estimated_pct_change := 0
                reasoning :=
                  "Weather conditions may continue to degrade line ratings"
                confidence := conf } ] }
    else none

/-- Mirrors `_detect_anomalies` (called on the post-append history;
`history[:-1]` excludes the current snapshot). -/
def detectAnomalies (history : List Snapshot) (d : GridData) (ts : String) :
    Option Issue :=
  if history.length < 5 then none
  else
    let historical := history.dropLast.map snapAvg
    let baseline_mean := meanList historical
    let baseline_std := stdList historical
    if baseline_std = 0 then none
    else
      let current_loading := d.summary.avg_loading.getD 0
      let z := |current_loading - baseline_mean| / baseline_std
      if z > 2.0 then
        let conf := min 1.0 (z / 4.0)
        some
          { id := "anomaly_" ++ ts
            severity := if z > 3.0 then "high" else "medium"
            affected_lines := ["system-wide"]
            timestamp := ts
            confidence := conf
            recommended_actions :=
              [ { action := "Investigate cause of sudden loading change"
                  estimated_mva_change := 0
                  estimated_pct_change := 0
                  reasoning :=
                    "Unexpected changes may indicate equipment issues or data anomalies"
                  confidence := conf } ] }
      else none

/-- The history entry appended by `monitor_grid_state`. -/
def mkSnapshot (ts : String) (d : GridData) : Snapshot :=
  { timestamp := ts, summary := d.summary, line_count := d.lines.length }

/-- Mirrors `monitor_grid_state`.  Returns the detected issues, the audit
entries written through `_log_decision` during the call (tagged with their
action names), and the updated state.  The source logs the critical
overload, trend, rating-decline and anomaly Issues, but not the
high-loading Issue. -/
def monitorGridState (st : AgentState) (ts : String) (d : GridData) :
    List Issue × List (String × Issue) × AgentState :=
  let hist1 := st.history ++ [mkSnapshot ts d]
  let window := pyInt st.thresholds.historical_window
  let hist2 := if hist1.length > window then pyLastSlice hist1 window else hist1
  let st1 : AgentState := { st with history := hist2 }
  let critList :=
    if (criticalBucket st.thresholds d.lines).isEmpty then []
    else [mkCriticalIssue st.thresholds d.lines ts]
  let highList :=
    if (highBucket st.thresholds d.lines).isEmpty then []
    else [mkHighIssue st.thresholds d.lines ts]
  let trendList :=
    if 3 ≤ st1.history.length then
      (detectLoadingTrend st1.history st1.thresholds ts).toList
    else []
  let declineList :=
    if 2 ≤ st1.history.length then
      (detectRatingDecline st1.history d st1.thresholds ts).toList
    else []
  let anomalyList := (detectAnomalies st1.history d ts).toList
  let issues := critList ++ highList ++ trendList ++ declineList ++ anomalyList
  let logged :=
    critList.map (fun i => ("critical_overload_detected", i))
      ++ trendList.map (fun i => ("loading_trend_detected", i))
      ++ declineList.map (fun i => ("rating_decline_detected", i))
      ++ anomalyList.map (fun i => ("anomaly_detected", i))
  (issues, logged, st1)

/-- Iterated `monitor_grid_state` calls, threading the state. -/
def monitorMany (st : AgentState) (calls : List (String × GridData)) :
    AgentState :=
  calls.foldl (fun s c => (monitorGridState s c.1 c.2).2.2) st

/-- One step of a weather forecast: a dict whose keys are all optional
(missing keys are filled with the defaults hard-coded in
`predict_future_states`). -/
structure Forecast where
  timestamp : Option String
  Ta : Option ℝ
  WindVelocity : Option ℝ
  WindAngleDeg : Option ℝ
  SunTime : Option ℝ
  Date : Option String
  Emissivity : Option ℝ
  Absorptivity : Option ℝ
  Direction : Option String
  Atmosphere : Option String
  Elevation : Option ℝ
  Latitude : Option ℝ

instance : DecidableEq Forecast := fun a b => by
  cases a; cases b
  exact decidable_of_iff _
    (iff_of_eq (Forecast.mk.injEq _ _ _ _ _ _ _ _ _ _ _ _ _ _ _ _ _ _ _ _ _ _
      _ _)).symm

/-- The fully-defaulted weather parameter set handed to the rating
engine (`weather_params` in `predict_future_states`). -/
structure WeatherParams where
  Ta : ℝ
  WindVelocity : ℝ
  WindAngleDeg : ℝ
  SunTime : ℝ
  Date : String
  Emissivity : ℝ
  Absorptivity : ℝ
  Direction : String
  Atmosphere : String
  Elevation : ℝ
  Latitude : ℝ

/-- Fills the forecast dict with the hard-coded defaults of
`predict_future_states`. -/
def buildWeatherParams (f : Forecast) : WeatherParams :=
  { Ta := f.Ta.getD 25
    WindVelocity := f.WindVelocity.getD 2.0
    WindAngleDeg := f.WindAngleDeg.getD 90
    SunTime := f.SunTime.getD 12
    Date := f.Date.getD "12 Jun"
    Emissivity := f.Emissivity.getD 0.8
    Absorptivity := f.Absorptivity.getD 0.8
    Direction := f.Direction.getD "EastWest"
    Atmosphere := f.Atmosphere.getD "Clear"
    Elevation := f.Elevation.getD 1000
    Latitude := f.Latitude.getD 27 }

/-- A successful per-step prediction record. -/
structure PredSuccess where
  timestamp : String
  predicted_ratings : List (String × ℝ)
  risk_levels : List (String × String)
  confidence : ℝ
  weather_conditions : WeatherParams

/-- One entry of the `predictions` list: either a full prediction or the
`{timestamp, error, confidence: 0.0}` record written when the engine
raises on that step. -/
inductive Prediction where
  | success (p : PredSuccess)
  | failure (timestamp : String) (error : String) (confidence : ℝ)

/-- Confidence of a prediction entry, whichever shape it has. -/
def Prediction.confidence : Prediction → ℝ
  | .success p => p.confidence
  | .failure _ _ c => c

/-- The dict returned by `predict_future_states`. -/
structure PredictResult where
  predictions : List Prediction
  model : String
  generated_at : String

/-- Python dict insertion `m[k] = v` on a dict kept as an
insertion-ordered association list: overwrite an existing key in place,
otherwise append. -/
def assocInsert (m : List (String × α)) (k : String) (v : α) :
    List (String × α) :=
  if m.any (fun p => p.1 == k) then
    m.map (fun p => if p.1 = k then (k, v) else p)
  else m ++ [(k, v)]

/-- The `predicted_ratings` dict built from the engine output. -/
def predictedRatings (lines : List Line) : List (String × ℝ) :=
  lines.foldl (fun m l => assocInsert m l.name (l.rating_mva.getD 0)) []

/-- The per-line risk classification against the current thresholds. -/
def riskLevel (th : Thresholds) (l : Line) : String :=
  if l.loading_pct.getD 0 ≥ th.critical_loading then "high"
  else if l.loading_pct.getD 0 ≥ th.high_loading then "medium"
  else "low"

/-- The `risk_levels` dict built from the engine output. -/
def riskLevels (th : Thresholds) (lines : List Line) :
    List (String × String) :=
  lines.foldl (fun m l => assocInsert m l.name (riskLevel th l)) []

/-- One iteration of the forecast loop in `predict_future_states`.  Note
that the source computes the step position with
`weather_forecast.index(forecast)`, the index of the FIRST equal element
of the whole list, not the loop position. -/
def predictStep (engine : WeatherParams → Except String GridData)
    (th : Thresholds) (wf : List Forecast) (now : String) (f : Forecast) :
    Prediction :=
  let wp := buildWeatherParams f
  match engine wp with
  | .error e => .failure (f.timestamp.getD now) e 0.0
  | .ok data =>
      let forecast_index := listIndex wf f
      .success
        { timestamp := f.timestamp.getD now
          predicted_ratings := predictedRatings data.lines
          risk_levels := riskLevels th data.lines
          confidence := max 0.5 (1.0 - (forecast_index : ℝ) * 0.1)
          weather_conditions := wp }

/-- Mirrors `predict_future_states` (the audit entry it writes contains
only the step and success counts and is not modelled). -/
def predictFutureStates (engine : WeatherParams → Except String GridData)
    (th : Thresholds) (wf : List Forecast) (now : String) : PredictResult :=
  { predictions := wf.map (predictStep engine th wf now)
    model := "ieee738"
    generated_at := now }

/-- The fixed severity-to-priority table of `generate_recommendations`
(`.get(severity, 4)` maps unknown severities to 4). -/
def severityToPriority (s : String) : ℕ :=
  if s = "critical" then 1
  else if s = "high" then 2
  else if s = "medium" then 3
  else if s = "low" then 4
  else 4

/-- The Recommendation built from `action_dict` of a parent issue, where
`n` is the running length of the recommendation list (used only for the
id suffix). -/
def recOfAction (issue : Issue) (n : ℕ) (a : RecommendedAction) :
    Recommendation :=
  { id := issue.id ++ "_action_" ++ toString n
    priority := severityToPriority issue.severity
    action := a.action
    impact_mva := a.estimated_mva_change
    impact_loading_pct := a.estimated_pct_change
    confidence := a.confidence
    justification := a.reasoning }

/-- The inner loop of `generate_recommendations`: append one
Recommendation per recommended action of `issue`. -/
def flattenIssue (acc : List Recommendation) (issue : Issue) :
    List Recommendation :=
  issue.recommended_actions.foldl
    (fun acc2 a => acc2 ++ [recOfAction issue acc2.length a]) acc

/-- The flattening loop of `generate_recommendations`: every recommended
action of every issue becomes one Recommendation. -/
def flattenRecs (issues : List Issue) : List Recommendation :=
  issues.foldl flattenIssue []

/-- The content of a Recommendation apart from its id (which only
carries the running counter): priority, action, confidence,
justification. -/
def recProj (r : Recommendation) : ℕ × String × ℝ × String :=
  (r.priority, r.action, r.confidence, r.justification)

/-- The content the flattening is supposed to give one Recommendation
per recommended action: the parent severity mapped through the fixed
priority table, and the action's text, confidence and reasoning. -/
def actionProj (issue : Issue) (a : RecommendedAction) :
    ℕ × String × ℝ × String :=
  (severityToPriority issue.severity, a.action, a.confidence, a.reasoning)

/-- The sort order of `generate_recommendations`: ascending by the key
`(priority, -confidence)`. -/
def recLe (a b : Recommendation) : Bool :=
  decide (a.priority < b.priority) ||
    (decide (a.priority = b.priority) && decide (b.confidence ≤ a.confidence))

/-- Mirrors `generate_recommendations` (the `scope` parameter is accepted
and ignored by the source; the audit entry is not modelled).  Sorting is
by the stable sort on the key `(priority, -confidence)`; truncation is the
Python slice `[:limit]`. -/
def generateRecommendations (issues : List Issue) (scope : String)
    (limit : ℤ) : List Recommendation :=
  let _ := scope
  pyTake ((flattenRecs issues).mergeSort recLe) limit

/-- Mirrors `learn_from_outcomes`. -/
def learnFromOutcomes (st : AgentState) (action_id : String) (ts : String)
    (operator_feedback : Feedback) : AgentState :=
  let entry : FeedbackEntry :=
    { action_id := action_id, timestamp := ts, feedback := operator_feedback }
  let ah1 := st.action_history ++ [entry]
  let ah2 := if ah1.length > 100 then pyLastSlice ah1 100 else ah1
  let result := operator_feedback.result.getD "unknown"
  let th := st.thresholds
  let th2 :=
    if result = "accepted" then
      if operator_feedback.success.getD false then th
      else { th with high_loading := max 70.0 (th.high_loading - 2.0) }
    else if result = "rejected" then
      { th with high_loading := min 95.0 (th.high_loading + 2.0) }
    else th
  { st with action_history := ah2, thresholds := th2 }

/-- Iterated `learn_from_outcomes` calls, threading the state. -/
def learnMany (st : AgentState)
    (calls : List (String × String × Feedback)) : AgentState :=
  calls.foldl (fun s c => learnFromOutcomes s c.1 c.2.1 c.2.2) st

/-- The `{result: 'rejected'}` feedback dict of Scenario C. -/
def rejectedFeedback : Feedback := { result := some "rejected", success := none }

/-- The observable situations of the state file read by
`AgentState.load`: the file is absent, present but unparseable or not a
valid state document, or a valid persisted state. -/
inductive StateFile where
  | missing
  | unreadable (msg : String)
  | valid (st : AgentState)

/-- Mirrors `AgentState.load`: a missing file yields a fresh default
state, any error while reading or parsing is caught and also yields a
fresh default state, and a valid file yields its contents.  The function
is total: no outcome escapes as an exception. -/
def AgentState.load : StateFile → AgentState
  | .missing => defaultAgentState
  | .unreadable _ => defaultAgentState
  | .valid st => st

/-! ### Concrete sample data for witnesses and counterexamples -/

/-- A summary dict with no keys. -/
def emptySummary : Summary := { avg_loading := none, max_loading := none }

/-- A summary dict carrying only `avg_loading`. -/
def mkSummary (x : ℝ) : Summary := { avg_loading := some x, max_loading := none }

/-- A history entry whose summary has `avg_loading = x`. -/
def snapAt (x : ℝ) : Snapshot :=
  { timestamp := "h", summary := mkSummary x, line_count := 0 }

/-- A grid snapshot with no lines and `avg_loading = x`. -/
def dataAt (x : ℝ) : GridData := { lines := [], summary := mkSummary x }

/-- A line dict carrying only `name` and `loading_pct`. -/
def lineAt (nm : String) (pct : ℝ) : Line :=
  { name := nm, loading_pct := some pct, rating_mva := none, flow_mva := none,
    margin_mva := none }

/-- A grid snapshot with a single line and no summary values. -/
def oneLineData (nm : String) (pct : ℝ) : GridData :=
  { lines := [lineAt nm pct], summary := emptySummary }

/-- A grid snapshot with no lines and no summary values. -/
def emptyData : GridData := { lines := [], summary := emptySummary }

/-- A forecast step dict with no keys at all. -/
def forecastEmpty : Forecast :=
  { timestamp := none, Ta := none, WindVelocity := none, WindAngleDeg := none,
    SunTime := none, Date := none, Emissivity := none, Absorptivity := none,
    Direction := none, Atmosphere := none, Elevation := none, Latitude := none }

/-- A forecast step specifying only the ambient temperature. -/
def forecastTa (x : ℝ) : Forecast := { forecastEmpty with Ta := some x }

/-- A five-entry history whose first four average loadings are 40, 60,
40, 60 (mean 50, population standard deviation 10). -/
def anomalyHistory : List Snapshot :=
  [snapAt 40, snapAt 60, snapAt 40, snapAt 60, snapAt 75]

/-- A rating engine that always succeeds with an empty line list. -/
def okEngine : WeatherParams → Except String GridData :=
  fun _ => .ok emptyData

/-- A rating engine that raises exactly when `Ta = 99`. -/
def fragileEngine : WeatherParams → Except String GridData :=
  fun wp =>
    if wp.Ta = 99 then .error "IEEE 738 calculation failed" else .ok emptyData

/-- A three-step forecast whose second step makes `fragileEngine` raise. -/
def scenarioE : List Forecast := [forecastEmpty, forecastTa 99, forecastTa 30]

/-- A three-step forecast whose third step is a duplicate dict of the
first. -/
def dupForecasts : List Forecast := [forecastEmpty, forecastTa 30, forecastEmpty]

/-! ### Helper lemmas -/

/-- The high-loading threshold after one `learn_from_outcomes` call, by
case on the feedback. -/
theorem learn_high_loading_eq (s : AgentState) (a t : String)
    (fb : Feedback) :
    (learnFromOutcomes s a t fb).thresholds.high_loading =
      (if fb.result.getD "unknown" = "accepted" then
        (if fb.success.getD false then s.thresholds.high_loading
         else max 70.0 (s.thresholds.high_loading - 2.0))
       else if fb.result.getD "unknown" = "rejected" then
        min 95.0 (s.thresholds.high_loading + 2.0)
       else s.thresholds.high_loading) := by
  simp only [learnFromOutcomes]
  split_ifs <;> rfl

/-- A single learning step keeps the high-loading threshold inside
`[70, 95]`. -/
theorem learn_high_loading_bounds (s : AgentState) (a t : String)
    (fb : Feedback) (h1 : 70 ≤ s.thresholds.high_loading)
    (h2 : s.thresholds.high_loading ≤ 95) :
    70 ≤ (learnFromOutcomes s a t fb).thresholds.high_loading ∧
      (learnFromOutcomes s a t fb).thresholds.high_loading ≤ 95 := by
  rw [learn_high_loading_eq]
  split_ifs <;> constructor <;>
    (try simp only [le_max_iff, max_le_iff, le_min_iff, min_le_iff]) <;>
    (try norm_num) <;> linarith

/-- Any sequence of learning steps keeps the high-loading threshold
inside `[70, 95]`. -/
theorem learnMany_high_loading_bounds (calls : List (String × String × Feedback)) :
    ∀ s : AgentState, 70 ≤ s.thresholds.high_loading →
      s.thresholds.high_loading ≤ 95 →
      70 ≤ (learnMany s calls).thresholds.high_loading ∧
        (learnMany s calls).thresholds.high_loading ≤ 95 := by
  induction calls with
  | nil => exact fun s h1 h2 => ⟨h1, h2⟩
  | cons c rest ih =>
      intro s h1 h2
      have hstep := learn_high_loading_bounds s c.1 c.2.1 c.2.2 h1 h2
      simpa [learnMany] using
        ih (learnFromOutcomes s c.1 c.2.1 c.2.2) hstep.1 hstep.2

/-- A rejected-feedback step raises the high-loading threshold by 2,
capped at 95. -/
theorem learn_rejected_step (s : AgentState) (a t : String) :
    (learnFromOutcomes s a t rejectedFeedback).thresholds.high_loading =
      min 95.0 (s.thresholds.high_loading + 2.0) := by
  rw [learn_high_loading_eq]
  simp [rejectedFeedback]

/-- Once the high-loading threshold has saturated at 95, further rejected
feedback leaves it there. -/
theorem learnMany_rejected_saturated (n : ℕ) :
    ∀ s : AgentState, s.thresholds.high_loading = 95 →
      (learnMany s
          (List.replicate n ("a", "t", rejectedFeedback))).thresholds.high_loading
        = 95 := by
  induction n with
  | zero => intro s h; simpa [learnMany] using h
  | succ k ih =>
      intro s h
      have hstep :
          (learnFromOutcomes s "a" "t" rejectedFeedback).thresholds.high_loading
            = 95 := by
        rw [learn_rejected_step, h]; norm_num
      simpa [List.replicate_succ, learnMany] using
        ih (learnFromOutcomes s "a" "t" rejectedFeedback) hstep

/-- Twenty consecutive rejected-feedback calls from the default state
leave the high-loading threshold at exactly 95. -/
theorem learnMany_rejected_twenty :
    (learnMany defaultAgentState
        (List.replicate 20 ("a", "t", rejectedFeedback))).thresholds.high_loading
      = 95 := by
  have hsplit : (List.replicate 20 ("a", "t", rejectedFeedback)) =
      List.replicate 3 ("a", "t", rejectedFeedback) ++
        List.replicate 17 ("a", "t", rejectedFeedback) := by
    rw [← List.replicate_add]
  rw [hsplit]
  have h3 : (learnMany defaultAgentState
      (List.replicate 3 ("a", "t", rejectedFeedback))).thresholds.high_loading
        = 95 := by
    show (learnFromOutcomes (learnFromOutcomes (learnFromOutcomes
        defaultAgentState "a" "t" rejectedFeedback) "a" "t" rejectedFeedback)
        "a" "t" rejectedFeedback).thresholds.high_loading = 95
    rw [learn_rejected_step, learn_rejected_step, learn_rejected_step]
    show min 95.0 (min 95.0 (min 95.0
      (defaultAgentState.thresholds.high_loading + 2.0) + 2.0) + 2.0) = 95
    show min 95.0 (min 95.0 (min (95.0 : ℝ) (90 + 2.0) + 2.0) + 2.0) = 95
    norm_num
  have := learnMany_rejected_saturated 17
    (learnMany defaultAgentState (List.replicate 3 ("a", "t", rejectedFeedback)))
    h3
  calc (learnMany defaultAgentState
        (List.replicate 3 ("a", "t", rejectedFeedback) ++
          List.replicate 17 ("a", "t", rejectedFeedback))).thresholds.high_loading
      = (learnMany (learnMany defaultAgentState
          (List.replicate 3 ("a", "t", rejectedFeedback)))
          (List.replicate 17 ("a", "t", rejectedFeedback))).thresholds.high_loading := by
        rw [learnMany, learnMany, learnMany, List.foldl_append]
    _ = 95 := this

/-! ### Claim theorems for the learning loop and state loading -/

/-- Claim C3: starting from a state whose high-loading threshold lies in
[70, 95], any finite sequence of learn calls with arbitrary action ids
and feedback leaves it in [70, 95]; and 20 consecutive learn calls with
rejected feedback from the default state (threshold 90) leave it at
exactly 95. -/
theorem learn_threshold_invariant (s : AgentState)
    (calls : List (String × String × Feedback))
    (h1 : 70 ≤ s.thresholds.high_loading)
    (h2 : s.thresholds.high_loading ≤ 95) :
    (70 ≤ (learnMany s calls).thresholds.high_loading ∧
      (learnMany s calls).thresholds.high_loading ≤ 95) ∧
    (learnMany defaultAgentState
        (List.replicate 20 ("a", "t", rejectedFeedback))).thresholds.high_loading
      = 95 :=
  ⟨learnMany_high_loading_bounds calls s h1 h2, learnMany_rejected_twenty⟩

/-- Witness for C3 at the default state and a two-call sequence. -/
theorem learn_threshold_invariant_witness :
    (70 ≤ defaultAgentState.thresholds.high_loading ∧
      defaultAgentState.thresholds.high_loading ≤ 95) ∧
    ((70 ≤ (learnMany defaultAgentState
          [("a1", "t1", { result := some "accepted", success := some false }),
           ("a2", "t2", rejectedFeedback)]).thresholds.high_loading ∧
        (learnMany defaultAgentState
          [("a1", "t1", { result := some "accepted", success := some false }),
           ("a2", "t2", rejectedFeedback)]).thresholds.high_loading ≤ 95) ∧
      (learnMany defaultAgentState
          (List.replicate 20 ("a", "t", rejectedFeedback))).thresholds.high_loading
        = 95) :=
  ⟨⟨by norm_num [defaultAgentState, defaultThresholds],
    by norm_num [defaultAgentState, defaultThresholds]⟩,
   learn_threshold_invariant defaultAgentState
     [("a1", "t1", { result := some "accepted", success := some false }),
      ("a2", "t2", rejectedFeedback)]
     (by norm_num [defaultAgentState, defaultThresholds])
     (by norm_num [defaultAgentState, defaultThresholds])⟩

/-- Claim C10: a learn call whose feedback has result accepted but no
success key behaves exactly like an explicit success equal to false (the
source reads `.get('success', False)`): the high-loading threshold drops
by 2, clamped below at 70; an explicit success equal to true leaves the
thresholds unchanged. -/
theorem learn_missing_success_key (s : AgentState) (a t : String) :
    (learnFromOutcomes s a t
        { result := some "accepted", success := none }).thresholds.high_loading
      = max 70.0 (s.thresholds.high_loading - 2.0) ∧
    (learnFromOutcomes s a t
        { result := some "accepted", success := none }).thresholds
      = (learnFromOutcomes s a t
          { result := some "accepted", success := some false }).thresholds ∧
    (learnFromOutcomes s a t
        { result := some "accepted", success := some true }).thresholds
      = s.thresholds := by
  refine ⟨?_, ?_, ?_⟩
  · rw [learn_high_loading_eq]; simp
  · simp [learnFromOutcomes]
  · simp [learnFromOutcomes]

/-- Claim C9: loading the persisted state never propagates an error: a
missing file yields a fresh default state (default thresholds, empty
history and action history), and an unreadable or invalid file yields
the same fresh default state; a valid file yields its contents. -/
theorem load_never_fails (msg : String) (s : AgentState) :
    AgentState.load .missing = defaultAgentState ∧
    AgentState.load (.unreadable msg) = defaultAgentState ∧
    AgentState.load (.valid s) = s ∧
    defaultAgentState.history = [] ∧
    defaultAgentState.action_history = [] ∧
    defaultAgentState.thresholds = defaultThresholds :=
  ⟨rfl, rfl, rfl, rfl, rfl, rfl⟩

/-! ### History-window lemmas -/

/-- `monitor_grid_state` never touches the thresholds. -/
theorem monitor_thresholds_eq (st : AgentState) (ts : String) (d : GridData) :
    (monitorGridState st ts d).2.2.thresholds = st.thresholds := rfl

/-- The history stored by `monitor_grid_state`: append, then trim to the
last `historical_window` entries when the window is exceeded. -/
theorem monitor_history_eq (st : AgentState) (ts : String) (d : GridData) :
    (monitorGridState st ts d).2.2.history =
      (if (st.history ++ [mkSnapshot ts d]).length >
            pyInt st.thresholds.historical_window
       then pyLastSlice (st.history ++ [mkSnapshot ts d])
              (pyInt st.thresholds.historical_window)
       else st.history ++ [mkSnapshot ts d]) := rfl

/-- Length of the Python slice `l[-w:]` for positive `w`. -/
theorem pyLastSlice_length (l : List α) (w : ℕ) (hw : 1 ≤ w) :
    (pyLastSlice l w).length = min l.length w := by
  unfold pyLastSlice
  rw [if_neg (by omega)]
  rw [List.length_drop]
  omega

/-- The slice `l[-w:]` is a suffix of `l`. -/
theorem pyLastSlice_suffix (l : List α) (w : ℕ) :
    pyLastSlice l w <:+ l := by
  unfold pyLastSlice
  split_ifs
  · exact List.suffix_refl l
  · exact List.drop_suffix _ l

/-- Post-state history length of a single monitor call. -/
theorem monitor_history_length (st : AgentState) (ts : String) (d : GridData)
    (hw : 1 ≤ pyInt st.thresholds.historical_window) :
    (monitorGridState st ts d).2.2.history.length =
      min (st.history.length + 1) (pyInt st.thresholds.historical_window) := by
  rw [monitor_history_eq]
  split_ifs with h
  · rw [pyLastSlice_length _ _ hw]
    simp only [List.length_append, List.length_singleton] at h ⊢
    try omega
  · simp only [List.length_append, List.length_singleton] at h ⊢
    omega

/-- The post-state history is a suffix of the appended history
(oldest-first eviction). -/
theorem monitor_history_suffix (st : AgentState) (ts : String) (d : GridData) :
    (monitorGridState st ts d).2.2.history <:+
      st.history ++ [mkSnapshot ts d] := by
  rw [monitor_history_eq]
  split_ifs
  · exact pyLastSlice_suffix _ _
  · exact List.suffix_refl _

/-- Over any monitor-call sequence the thresholds are preserved and the
history length is `min (initial + N) window`, provided the initial
history already fits the window. -/
theorem monitorMany_history_length (calls : List (String × GridData)) :
    ∀ st : AgentState, 1 ≤ pyInt st.thresholds.historical_window →
      st.history.length ≤ pyInt st.thresholds.historical_window →
      (monitorMany st calls).thresholds = st.thresholds ∧
      (monitorMany st calls).history.length =
        min (st.history.length + calls.length)
          (pyInt st.thresholds.historical_window) := by
  induction calls with
  | nil =>
      intro st hw hlen
      refine ⟨rfl, ?_⟩
      show st.history.length = _
      simp only [List.length_nil, Nat.add_zero]
      omega
  | cons c rest ih =>
      intro st hw hlen
      have hth := monitor_thresholds_eq st c.1 c.2
      have hlenstep := monitor_history_length st c.1 c.2 hw
      have hw2 : 1 ≤ pyInt (monitorGridState st c.1 c.2).2.2.thresholds.historical_window := by
        rw [hth]; exact hw
      have hlen2 : (monitorGridState st c.1 c.2).2.2.history.length ≤
          pyInt (monitorGridState st c.1 c.2).2.2.thresholds.historical_window := by
        rw [hth, hlenstep]; omega
      have hrest := ih ((monitorGridState st c.1 c.2).2.2) hw2 hlen2
      have hm : monitorMany st (c :: rest) =
          monitorMany ((monitorGridState st c.1 c.2).2.2) rest := rfl
      rw [hm, hrest.1, hrest.2, hth, hlenstep]
      refine ⟨rfl, ?_⟩
      simp only [List.length_cons, hth]
      omega

/-! ### Claim theorem for the history window -/

/-- Claim C4: from an empty history, after any sequence of N monitor
calls the stored history length is `min N window` (window at least 1 and
constant, as monitor calls never change thresholds); each single call
appends the snapshot and keeps a suffix — the most recent entries — of
length `min (old + 1) window`. -/
theorem history_window_invariant (st : AgentState)
    (calls : List (String × GridData))
    (h0 : st.history = [])
    (hw : 1 ≤ pyInt st.thresholds.historical_window) :
    ((monitorMany st calls).thresholds = st.thresholds ∧
      (monitorMany st calls).history.length =
        min calls.length (pyInt st.thresholds.historical_window)) ∧
    ∀ (s : AgentState) (ts : String) (d : GridData),
      1 ≤ pyInt s.thresholds.historical_window →
      ((monitorGridState s ts d).2.2.history <:+
          s.history ++ [mkSnapshot ts d] ∧
        (monitorGridState s ts d).2.2.history.length =
          min (s.history.length + 1) (pyInt s.thresholds.historical_window)) := by
  have hlen0 : st.history.length ≤ pyInt st.thresholds.historical_window := by
    rw [h0]; simp
  have hmain := monitorMany_history_length calls st hw hlen0
  refine ⟨⟨hmain.1, ?_⟩, ?_⟩
  · rw [hmain.2, h0]
    simp
  · intro s ts d hws
    exact ⟨monitor_history_suffix s ts d, monitor_history_length s ts d hws⟩

/-- Witness for C4: two monitor calls from the default state, plus one
single-call eviction fact. -/
theorem history_window_invariant_witness :
    (defaultAgentState.history = ([] : List Snapshot) ∧
      1 ≤ pyInt defaultAgentState.thresholds.historical_window) ∧
    ((monitorMany defaultAgentState
        [("t1", emptyData), ("t2", emptyData)]).thresholds
          = defaultAgentState.thresholds ∧
      (monitorMany defaultAgentState
        [("t1", emptyData), ("t2", emptyData)]).history.length
          = min 2 (pyInt defaultAgentState.thresholds.historical_window)) ∧
    ((monitorGridState defaultAgentState "t3" emptyData).2.2.history <:+
        defaultAgentState.history ++ [mkSnapshot "t3" emptyData] ∧
      (monitorGridState defaultAgentState "t3" emptyData).2.2.history.length
        = min (defaultAgentState.history.length + 1)
            (pyInt defaultAgentState.thresholds.historical_window)) := by
  have hw : 1 ≤ pyInt defaultAgentState.thresholds.historical_window := by
    norm_num [pyInt, defaultAgentState, defaultThresholds]
  have h := history_window_invariant defaultAgentState
    [("t1", emptyData), ("t2", emptyData)] rfl hw
  exact ⟨⟨rfl, hw⟩, h.1, h.2 defaultAgentState "t3" emptyData hw⟩

/-! ### Audit-log lemmas -/

/-- Appending the same suffix to strings of different lengths yields
different strings. -/
theorem append_ne_of_length_ne (a b ts : String)
    (h : a.length ≠ b.length) : a ++ ts ≠ b ++ ts := by
  intro he
  have hl := congrArg String.length he
  rw [String.length_append, String.length_append] at hl
  exact h (by omega)

/-- The issue list of a monitor call, component by component. -/
theorem monitor_issues_eq (st : AgentState) (ts : String) (d : GridData) :
    (monitorGridState st ts d).1 =
      (if (criticalBucket st.thresholds d.lines).isEmpty then []
       else [mkCriticalIssue st.thresholds d.lines ts])
      ++ (if (highBucket st.thresholds d.lines).isEmpty then []
          else [mkHighIssue st.thresholds d.lines ts])
      ++ (if 3 ≤ (monitorGridState st ts d).2.2.history.length then
            (detectLoadingTrend (monitorGridState st ts d).2.2.history
              st.thresholds ts).toList
          else [])
      ++ (if 2 ≤ (monitorGridState st ts d).2.2.history.length then
            (detectRatingDecline (monitorGridState st ts d).2.2.history d
              st.thresholds ts).toList
          else [])
      ++ (detectAnomalies (monitorGridState st ts d).2.2.history d ts).toList :=
  rfl

/-- The audit entries of a monitor call, component by component: the
high-loading Issue has no audit entry. -/
theorem monitor_logged_eq (st : AgentState) (ts : String) (d : GridData) :
    (monitorGridState st ts d).2.1 =
      (if (criticalBucket st.thresholds d.lines).isEmpty then []
       else [mkCriticalIssue st.thresholds d.lines ts]).map
         (fun i => ("critical_overload_detected", i))
      ++ (if 3 ≤ (monitorGridState st ts d).2.2.history.length then
            (detectLoadingTrend (monitorGridState st ts d).2.2.history
              st.thresholds ts).toList
          else []).map (fun i => ("loading_trend_detected", i))
      ++ (if 2 ≤ (monitorGridState st ts d).2.2.history.length then
            (detectRatingDecline (monitorGridState st ts d).2.2.history d
              st.thresholds ts).toList
          else []).map (fun i => ("rating_decline_detected", i))
      ++ (detectAnomalies (monitorGridState st ts d).2.2.history d ts).toList.map
           (fun i => ("anomaly_detected", i)) :=
  rfl

/-- A trend Issue always carries the trend id. -/
theorem detectLoadingTrend_id (history : List Snapshot) (th : Thresholds)
    (ts : String) (i : Issue)
    (h : detectLoadingTrend history th ts = some i) :
    i.id = "loading_trend_" ++ ts := by
  unfold detectLoadingTrend at h
  dsimp only at h
  split_ifs at h
  all_goals
    first
      | exact Option.noConfusion h
      | (injection h with h2
         subst h2
         rfl)

/-- A rating-decline Issue always carries the rating-decline id. -/
theorem detectRatingDecline_id (history : List Snapshot) (d : GridData)
    (th : Thresholds) (ts : String) (i : Issue)
    (h : detectRatingDecline history d th ts = some i) :
    i.id = "rating_decline_" ++ ts := by
  unfold detectRatingDecline at h
  dsimp only at h
  split_ifs at h
  all_goals
    first
      | exact Option.noConfusion h
      | (injection h with h2
         subst h2
         rfl)

/-- An anomaly Issue always carries the anomaly id. -/
theorem detectAnomalies_id (history : List Snapshot) (d : GridData)
    (ts : String) (i : Issue)
    (h : detectAnomalies history d ts = some i) :
    i.id = "anomaly_" ++ ts := by
  unfold detectAnomalies at h
  dsimp only at h
  split_ifs at h
  all_goals
    first
      | exact Option.noConfusion h
      | (injection h with h2
         subst h2
         rfl)

/-- Filtering out the high-loading id keeps a detector result whose id
has a prefix of a different length. -/
theorem filter_nonhigh_toList (ts : String) (o : Option Issue) (pre : String)
    (hid : ∀ i, o = some i → i.id = pre ++ ts)
    (hpre : pre.length ≠ ("high_loading_" : String).length) :
    o.toList.filter (fun i => !decide (i.id = "high_loading_" ++ ts)) =
      o.toList := by
  cases o with
  | none => rfl
  | some i =>
      have hne : i.id ≠ "high_loading_" ++ ts := by
        rw [hid i rfl]
        exact append_ne_of_length_ne _ _ _ hpre
      simp [hne]

/-- Filtering commutes with the detector gate. -/
theorem filter_gated (c : Prop) [Decidable c] (o : Option Issue)
    (p : Issue → Bool) (h : o.toList.filter p = o.toList) :
    (if c then o.toList else []).filter p = (if c then o.toList else []) := by
  split_ifs
  · exact h
  · rfl

/-- Filtering out the high-loading id keeps the critical part. -/
theorem filter_crit_part (th : Thresholds) (lines : List Line) (ts : String) :
    (if (criticalBucket th lines).isEmpty then ([] : List Issue)
     else [mkCriticalIssue th lines ts]).filter
       (fun i => !decide (i.id = "high_loading_" ++ ts)) =
    (if (criticalBucket th lines).isEmpty then []
     else [mkCriticalIssue th lines ts]) := by
  split_ifs
  · rfl
  · have hne : ("critical_loading_" ++ ts) ≠ "high_loading_" ++ ts :=
      append_ne_of_length_ne _ _ _ (by decide)
    simp [mkCriticalIssue, hne]

/-- Filtering out the high-loading id removes the high part entirely. -/
theorem filter_high_part (th : Thresholds) (lines : List Line) (ts : String) :
    (if (highBucket th lines).isEmpty then ([] : List Issue)
     else [mkHighIssue th lines ts]).filter
       (fun i => !decide (i.id = "high_loading_" ++ ts)) = [] := by
  split_ifs
  · rfl
  · simp [mkHighIssue]

/-! ### Claim theorems for the audit log -/

/-- Claim C1 (amended): the Issues written to the decision audit log by a
monitor call are exactly the emitted Issues other than the high-loading
overload Issue (id `high_loading_<timestamp>`); that Issue is emitted
without an audit entry, every other emitted Issue is logged. -/
theorem monitor_audit_amended (st : AgentState) (ts : String) (d : GridData) :
    (monitorGridState st ts d).2.1.map Prod.snd =
      (monitorGridState st ts d).1.filter
        (fun i => !decide (i.id = "high_loading_" ++ ts)) := by
  have htr := filter_gated (3 ≤ (monitorGridState st ts d).2.2.history.length)
    (detectLoadingTrend (monitorGridState st ts d).2.2.history st.thresholds ts)
    (fun i => !decide (i.id = "high_loading_" ++ ts))
    (filter_nonhigh_toList ts _ "loading_trend_"
      (detectLoadingTrend_id (monitorGridState st ts d).2.2.history
        st.thresholds ts) (by decide))
  have hde := filter_gated (2 ≤ (monitorGridState st ts d).2.2.history.length)
    (detectRatingDecline (monitorGridState st ts d).2.2.history d
      st.thresholds ts)
    (fun i => !decide (i.id = "high_loading_" ++ ts))
    (filter_nonhigh_toList ts _ "rating_decline_"
      (detectRatingDecline_id (monitorGridState st ts d).2.2.history d
        st.thresholds ts) (by decide))
  have han := filter_nonhigh_toList ts
    (detectAnomalies (monitorGridState st ts d).2.2.history d ts) "anomaly_"
    (detectAnomalies_id (monitorGridState st ts d).2.2.history d ts)
    (by decide)
  rw [monitor_logged_eq, monitor_issues_eq]
  rw [List.filter_append, List.filter_append, List.filter_append,
    List.filter_append]
  rw [filter_crit_part, filter_high_part, htr, hde, han]
  simp [List.map_map, Function.comp_def]

/-- Counterexample to C1 as stated: on a fresh default state and a
snapshot with a single line at 92 percent loading, the monitor call emits
the high-loading Issue but writes no audit entry at all. -/
theorem monitor_audit_counterexample :
    ¬ ∀ i ∈ (monitorGridState defaultAgentState "t" (oneLineData "L1" 92)).1,
        ∃ a, (a, i) ∈
          (monitorGridState defaultAgentState "t" (oneLineData "L1" 92)).2.1 := by
  have hhist : (monitorGridState defaultAgentState "t"
      (oneLineData "L1" 92)).2.2.history
        = [mkSnapshot "t" (oneLineData "L1" 92)] := by
    rw [monitor_history_eq]
    norm_num [pyInt, defaultAgentState, defaultThresholds]
  have hiss : (monitorGridState defaultAgentState "t" (oneLineData "L1" 92)).1
      = [mkHighIssue defaultThresholds [lineAt "L1" 92] "t"] := by
    rw [monitor_issues_eq, hhist]
    norm_num [criticalBucket, highBucket, oneLineData, lineAt,
      defaultAgentState, defaultThresholds, detectAnomalies]
  have hlog : (monitorGridState defaultAgentState "t"
      (oneLineData "L1" 92)).2.1 = [] := by
    rw [monitor_logged_eq, hhist]
    norm_num [criticalBucket, oneLineData, lineAt, defaultAgentState,
      defaultThresholds, detectAnomalies]
  intro hall
  obtain ⟨a, ha⟩ := hall (mkHighIssue defaultThresholds [lineAt "L1" 92] "t")
    (by rw [hiss]; exact List.mem_singleton.mpr rfl)
  rw [hlog] at ha
  exact (List.not_mem_nil _) ha

/-! ### Claim theorem for the overload detector -/

/-- Claim C8: the overload detector buckets the lines by loading
percentage (critical at or above `critical_loading`, high between
`high_loading` inclusive and `critical_loading` exclusive), emits exactly
one Issue per non-empty bucket with confidence 1 and the bucket's line
names as affected lines; and a fresh state with one line at 105 percent
against `critical_loading = 100` yields exactly one Issue, a critical one
for that line with confidence 1. -/
theorem overload_buckets (th : Thresholds) (lines : List Line) (ts : String) :
    (∀ l ∈ lines,
      (l ∈ criticalBucket th lines ↔
        l.loading_pct.getD 0 ≥ th.critical_loading) ∧
      (l ∈ highBucket th lines ↔
        (th.high_loading ≤ l.loading_pct.getD 0 ∧
          l.loading_pct.getD 0 < th.critical_loading))) ∧
    (overloadIssues th lines ts).length =
      ((if (criticalBucket th lines).isEmpty then 0 else 1) +
        (if (highBucket th lines).isEmpty then 0 else 1)) ∧
    (∀ i ∈ overloadIssues th lines ts, i.confidence = 1.0) ∧
    (criticalBucket th lines ≠ [] →
      ∃ i ∈ overloadIssues th lines ts, i.severity = "critical" ∧
        i.affected_lines = (criticalBucket th lines).map Line.name ∧
        i.confidence = 1.0) ∧
    (highBucket th lines ≠ [] →
      ∃ i ∈ overloadIssues th lines ts, i.severity = "high" ∧
        i.affected_lines = (highBucket th lines).map Line.name ∧
        i.confidence = 1.0) ∧
    ((monitorGridState defaultAgentState ts (oneLineData "L1" 105)).1.length
        = 1 ∧
      ∀ i ∈ (monitorGridState defaultAgentState ts (oneLineData "L1" 105)).1,
        i.severity = "critical" ∧ i.affected_lines = ["L1"] ∧
          i.confidence = 1.0) := by
  refine ⟨?_, ?_, ?_, ?_, ?_, ?_⟩
  · intro l hl
    constructor
    · simp [criticalBucket, List.mem_filter, hl]
    · simp [highBucket, List.mem_filter, hl]
  · unfold overloadIssues
    split_ifs <;> simp_all
  · intro i hi
    unfold overloadIssues at hi
    split_ifs at hi <;>
      simp only [List.nil_append, List.append_nil, List.mem_append,
        List.mem_singleton, List.not_mem_nil, or_false, false_or] at hi
    · rcases hi with rfl
      rfl
    · rcases hi with rfl
      rfl
    · rcases hi with rfl | rfl <;> rfl
  · intro h
    refine ⟨mkCriticalIssue th lines ts, ?_, rfl, rfl, rfl⟩
    have : ¬ (criticalBucket th lines).isEmpty = true := by
      simpa [List.isEmpty_iff] using h
    simp [overloadIssues, this]
  · intro h
    refine ⟨mkHighIssue th lines ts, ?_, rfl, rfl, rfl⟩
    have : ¬ (highBucket th lines).isEmpty = true := by
      simpa [List.isEmpty_iff] using h
    simp [overloadIssues, this]
  · have hhist : (monitorGridState defaultAgentState ts
        (oneLineData "L1" 105)).2.2.history
          = [mkSnapshot ts (oneLineData "L1" 105)] := by
      rw [monitor_history_eq]
      norm_num [pyInt, defaultAgentState, defaultThresholds]
    have hiss : (monitorGridState defaultAgentState ts
        (oneLineData "L1" 105)).1
          = [mkCriticalIssue defaultThresholds [lineAt "L1" 105] ts] := by
      rw [monitor_issues_eq, hhist]
      norm_num [criticalBucket, highBucket, oneLineData, lineAt,
        defaultAgentState, defaultThresholds, detectAnomalies]
    rw [hiss]
    refine ⟨rfl, ?_⟩
    intro i hi
    rcases List.mem_singleton.mp hi with rfl
    refine ⟨rfl, ?_, rfl⟩
    show (criticalBucket defaultThresholds [lineAt "L1" 105]).map Line.name
        = ["L1"]
    norm_num [criticalBucket, lineAt, defaultThresholds]

/-- Witness for C8 at a two-line snapshot filling both buckets. -/
theorem overload_buckets_witness :
    (criticalBucket defaultThresholds [lineAt "L1" 105, lineAt "L2" 92] ≠ [] ∧
      highBucket defaultThresholds [lineAt "L1" 105, lineAt "L2" 92] ≠ []) ∧
    ((∃ i ∈ overloadIssues defaultThresholds
          [lineAt "L1" 105, lineAt "L2" 92] "t",
        i.severity = "critical" ∧
          i.affected_lines = (criticalBucket defaultThresholds
            [lineAt "L1" 105, lineAt "L2" 92]).map Line.name ∧
          i.confidence = 1.0) ∧
      (∃ i ∈ overloadIssues defaultThresholds
          [lineAt "L1" 105, lineAt "L2" 92] "t",
        i.severity = "high" ∧
          i.affected_lines = (highBucket defaultThresholds
            [lineAt "L1" 105, lineAt "L2" 92]).map Line.name ∧
          i.confidence = 1.0)) := by
  have hc : criticalBucket defaultThresholds
      [lineAt "L1" 105, lineAt "L2" 92] ≠ [] := by
    norm_num [criticalBucket, lineAt, defaultThresholds]
  have hh : highBucket defaultThresholds
      [lineAt "L1" 105, lineAt "L2" 92] ≠ [] := by
    norm_num [highBucket, lineAt, defaultThresholds]
  exact ⟨⟨hc, hh⟩,
    (overload_buckets defaultThresholds
      [lineAt "L1" 105, lineAt "L2" 92] "t").2.2.2.1 hc,
    (overload_buckets defaultThresholds
      [lineAt "L1" 105, lineAt "L2" 92] "t").2.2.2.2.1 hh⟩

/-! ### Claim theorem for the anomaly detector -/

/-- Claim C7: the anomaly detector runs only with at least 5 history
entries; it skips when the population standard deviation of the
average loadings of all history entries but the current one is zero
(never dividing by zero), and otherwise emits an Issue exactly when the
z-score exceeds 2, with severity high exactly when it exceeds 3 (medium
otherwise) and confidence `min 1 (z/4)`. -/
theorem anomaly_guard (history : List Snapshot) (d : GridData) (ts : String) :
    (history.length < 5 → detectAnomalies history d ts = none) ∧
    (stdList (history.dropLast.map snapAvg) = 0 →
      detectAnomalies history d ts = none) ∧
    (5 ≤ history.length →
      stdList (history.dropLast.map snapAvg) ≠ 0 →
      (((detectAnomalies history d ts).isSome = true) ↔
        |d.summary.avg_loading.getD 0 -
            meanList (history.dropLast.map snapAvg)| /
          stdList (history.dropLast.map snapAvg) > 2.0) ∧
      (∀ i, detectAnomalies history d ts = some i →
        i.severity =
          (if |d.summary.avg_loading.getD 0 -
                meanList (history.dropLast.map snapAvg)| /
              stdList (history.dropLast.map snapAvg) > 3.0
           then "high" else "medium") ∧
        i.confidence =
          min 1.0 (|d.summary.avg_loading.getD 0 -
              meanList (history.dropLast.map snapAvg)| /
            stdList (history.dropLast.map snapAvg) / 4.0))) := by
  refine ⟨?_, ?_, ?_⟩
  · intro h
    unfold detectAnomalies
    rw [if_pos h]
  · intro h
    unfold detectAnomalies
    dsimp only
    split_ifs <;> simp_all
  · intro h5 hstd
    unfold detectAnomalies
    dsimp only
    rw [if_neg (by omega), if_neg hstd]
    constructor
    · split_ifs with hz hz3
      · exact iff_of_true rfl hz
      · exact iff_of_true rfl hz
      · exact iff_of_false (by simp) hz
    · intro i hi
      split_ifs at hi with hz hz3
      · injection hi with h2
        subst h2
        exact ⟨by rw [if_pos hz3], rfl⟩
      · injection hi with h2
        subst h2
        exact ⟨by rw [if_neg hz3], rfl⟩

/-- Witness for C7 on a five-entry history with baseline mean 50 and
standard deviation 10, current loading 75 (z-score 2.5): the detector
fires a medium Issue. -/
theorem anomaly_guard_witness :
    (5 ≤ anomalyHistory.length ∧
      stdList (anomalyHistory.dropLast.map snapAvg) ≠ 0) ∧
    ((((detectAnomalies anomalyHistory (dataAt 75) "t").isSome = true) ↔
        |(dataAt 75).summary.avg_loading.getD 0 -
            meanList (anomalyHistory.dropLast.map snapAvg)| /
          stdList (anomalyHistory.dropLast.map snapAvg) > 2.0) ∧
      (∀ i, detectAnomalies anomalyHistory (dataAt 75) "t" = some i →
        i.severity =
          (if |(dataAt 75).summary.avg_loading.getD 0 -
                meanList (anomalyHistory.dropLast.map snapAvg)| /
              stdList (anomalyHistory.dropLast.map snapAvg) > 3.0
           then "high" else "medium") ∧
        i.confidence =
          min 1.0 (|(dataAt 75).summary.avg_loading.getD 0 -
              meanList (anomalyHistory.dropLast.map snapAvg)| /
            stdList (anomalyHistory.dropLast.map snapAvg) / 4.0))) ∧
    (detectAnomalies anomalyHistory (dataAt 75) "t").isSome = true := by
  have hbase : anomalyHistory.dropLast.map snapAvg
      = [(40 : ℝ), 60, 40, 60] := by
    norm_num [anomalyHistory, snapAt, mkSummary, snapAvg]
  have hmean : meanList [(40 : ℝ), 60, 40, 60] = 50 := by
    norm_num [meanList, sumList]
  have hstd : stdList [(40 : ℝ), 60, 40, 60] = 10 := by
    unfold stdList
    rw [hmean]
    have harg : sumList (([(40 : ℝ), 60, 40, 60]).map
          (fun x => (x - 50) ^ 2)) / (([(40 : ℝ), 60, 40, 60]).length : ℝ)
        = 100 := by
      norm_num [sumList]
    rw [harg, show (100 : ℝ) = 10 ^ 2 by norm_num]
    exact Real.sqrt_sq (by norm_num)
  have hstdne : stdList (anomalyHistory.dropLast.map snapAvg) ≠ 0 := by
    rw [hbase, hstd]
    norm_num
  have hlen : 5 ≤ anomalyHistory.length := by norm_num [anomalyHistory]
  have hmain := (anomaly_guard anomalyHistory (dataAt 75) "t").2.2 hlen hstdne
  refine ⟨⟨hlen, hstdne⟩, hmain, ?_⟩
  rw [hmain.1, hbase, hstd, hmean]
  have habs : |(dataAt 75).summary.avg_loading.getD 0 - (50 : ℝ)| = 25 := by
    rw [show (dataAt 75).summary.avg_loading.getD 0 = (75 : ℝ) from rfl]
    rw [abs_of_nonneg (by norm_num)]
    norm_num
  rw [habs]
  norm_num

/-! ### Claim theorems for the predictor -/

/-- Claim C6: predict returns exactly one prediction entry per forecast
step, in order; a step on which the engine raises yields an entry with
the error message and confidence 0 for that step only, and every step
with a successful engine call yields a full prediction — a single
failing step never aborts the batch. -/
theorem predict_isolation (engine : WeatherParams → Except String GridData)
    (th : Thresholds) (wf : List Forecast) (now : String) :
    (predictFutureStates engine th wf now).predictions.length = wf.length ∧
    ∀ (i : ℕ) (f : Forecast), wf.get? i = some f →
      ((∀ e, engine (buildWeatherParams f) = .error e →
          (predictFutureStates engine th wf now).predictions.get? i =
            some (.failure (f.timestamp.getD now) e 0.0)) ∧
       (∀ g, engine (buildWeatherParams f) = .ok g →
          (predictFutureStates engine th wf now).predictions.get? i =
            some (.success
              { timestamp := f.timestamp.getD now
                predicted_ratings := predictedRatings g.lines
                risk_levels := riskLevels th g.lines
                confidence :=
                  max 0.5 (1.0 - (listIndex wf f : ℝ) * 0.1)
                weather_conditions := buildWeatherParams f }))) := by
  constructor
  · simp [predictFutureStates]
  · intro i f hf
    have hf2 : wf[i]? = some f := by
      rw [List.get?_eq_getElem?] at hf
      exact hf
    have hmap : (predictFutureStates engine th wf now).predictions.get? i
        = some (predictStep engine th wf now f) := by
      simp [predictFutureStates, List.get?_eq_getElem?, List.getElem?_map, hf2]
    constructor
    · intro e he
      rw [hmap]
      unfold predictStep
      dsimp only
      rw [he]
    · intro g hg
      rw [hmap]
      unfold predictStep
      dsimp only
      rw [hg]

/-- Witness for C6 on Scenario E: a 3-step forecast where the engine
raises on step 2 gives 3 entries, an error entry with confidence 0 at
position 1 and a normal prediction at position 0. -/
theorem predict_isolation_witness :
    (scenarioE.get? 1 = some (forecastTa 99) ∧
      fragileEngine (buildWeatherParams (forecastTa 99)) =
        .error "IEEE 738 calculation failed" ∧
      scenarioE.get? 0 = some forecastEmpty ∧
      fragileEngine (buildWeatherParams forecastEmpty) = .ok emptyData) ∧
    (predictFutureStates fragileEngine defaultThresholds scenarioE
        "now").predictions.length = scenarioE.length ∧
    (predictFutureStates fragileEngine defaultThresholds scenarioE
        "now").predictions.get? 1 =
      some (.failure ((forecastTa 99).timestamp.getD "now")
        "IEEE 738 calculation failed" 0.0) ∧
    (predictFutureStates fragileEngine defaultThresholds scenarioE
        "now").predictions.get? 0 =
      some (.success
        { timestamp := forecastEmpty.timestamp.getD "now"
          predicted_ratings := predictedRatings emptyData.lines
          risk_levels := riskLevels defaultThresholds emptyData.lines
          confidence :=
            max 0.5 (1.0 - (listIndex scenarioE forecastEmpty : ℝ) * 0.1)
          weather_conditions := buildWeatherParams forecastEmpty }) := by
  have h1 : scenarioE.get? 1 = some (forecastTa 99) := rfl
  have h0 : scenarioE.get? 0 = some forecastEmpty := rfl
  have he : fragileEngine (buildWeatherParams (forecastTa 99)) =
      .error "IEEE 738 calculation failed" := by
    norm_num [fragileEngine, buildWeatherParams, forecastTa, forecastEmpty]
  have hok : fragileEngine (buildWeatherParams forecastEmpty) =
      .ok emptyData := by
    norm_num [fragileEngine, buildWeatherParams, forecastEmpty]
  have hthm := predict_isolation fragileEngine defaultThresholds scenarioE "now"
  exact ⟨⟨h1, he, h0, hok⟩, hthm.1,
    (hthm.2 1 (forecastTa 99) h1).1 _ he,
    (hthm.2 0 forecastEmpty h0).2 emptyData hok⟩

/-- Claim C2 evaluated at the failing input: on the forecast list
`[a, b, a]` with a duplicate dict, the source computes the step position
with `list.index`, so the third step reuses index 0 and the confidences
come out `[1.0, 0.9, 1.0]` — the third differs from
`max(0.5, 1 − 0.1×2) = 0.8` and the sequence is not non-increasing. -/
theorem predict_confidence_index_bug :
    (predictFutureStates okEngine defaultThresholds dupForecasts
        "now").predictions.map Prediction.confidence = [1.0, 0.9, 1.0] ∧
    ¬ ((1.0 : ℝ) = max 0.5 (1.0 - (2 : ℝ) * 0.1)) ∧
    ¬ ((1.0 : ℝ) ≤ 0.9) := by
  refine ⟨?_, by norm_num [max_def], by norm_num⟩
  have hne : forecastTa 30 ≠ forecastEmpty := by
    simp [forecastTa, forecastEmpty]
  have hi0 : listIndex dupForecasts forecastEmpty = 0 := by
    simp [dupForecasts, listIndex]
  have hi1 : listIndex dupForecasts (forecastTa 30) = 1 := by
    simp [dupForecasts, listIndex, hne]
  simp only [predictFutureStates, dupForecasts, List.map_cons, List.map_nil,
    predictStep, okEngine, Prediction.confidence]
  rw [show ([forecastEmpty, forecastTa 30, forecastEmpty] : List Forecast)
      = dupForecasts from rfl]
  rw [hi0, hi1]
  norm_num [max_def]

/-! ### Recommendation lemmas -/

/-- How `recLe` reads as a proposition. -/
theorem recLe_true_iff (a b : Recommendation) :
    recLe a b = true ↔
      (a.priority < b.priority ∨
        (a.priority = b.priority ∧ b.confidence ≤ a.confidence)) := by
  simp [recLe]

/-- `recLe` is transitive. -/
theorem recLe_trans (a b c : Recommendation)
    (h1 : recLe a b) (h2 : recLe b c) : recLe a c := by
  rw [recLe_true_iff] at h1 h2 ⊢
  rcases h1 with h1 | ⟨h1, h1c⟩ <;> rcases h2 with h2 | ⟨h2, h2c⟩
  · exact Or.inl (h1.trans h2)
  · exact Or.inl (h2 ▸ h1)
  · exact Or.inl (h1 ▸ h2)
  · exact Or.inr ⟨h1.trans h2, h2c.trans h1c⟩

/-- `recLe` is total. -/
theorem recLe_total (a b : Recommendation) : recLe a b || recLe b a := by
  rcases lt_trichotomy a.priority b.priority with h | h | h
  · simp [recLe_true_iff, h]
  · rcases le_total b.confidence a.confidence with hc | hc
    · simp [recLe_true_iff, h, hc]
    · simp [recLe_true_iff, h, hc]
  · simp [recLe_true_iff, Or.inl h]

/-- Elements produced by the inner flattening loop: either they were in
the accumulator already, or they come from one of the issue's actions. -/
theorem flattenIssue_mem (issue : Issue) (r : Recommendation) :
    ∀ (actions : List RecommendedAction) (acc : List Recommendation),
      r ∈ actions.foldl
        (fun acc2 a => acc2 ++ [recOfAction issue acc2.length a]) acc →
      r ∈ acc ∨ ∃ a ∈ actions, ∃ n, r = recOfAction issue n a := by
  intro actions
  induction actions with
  | nil => exact fun acc h => Or.inl h
  | cons a rest ih =>
      intro acc h
      simp only [List.foldl_cons] at h
      rcases ih (acc ++ [recOfAction issue acc.length a]) h with h2 | h2
      · rcases List.mem_append.mp h2 with h3 | h3
        · exact Or.inl h3
        · right
          refine ⟨a, List.mem_cons_self a rest, acc.length, ?_⟩
          simpa using h3
      · rcases h2 with ⟨b, hb, n, hr⟩
        exact Or.inr ⟨b, List.mem_cons_of_mem a hb, n, hr⟩

/-- Elements of the flattened list come from some issue's actions. -/
theorem flattenRecs_mem_aux (r : Recommendation) :
    ∀ (issues : List Issue) (acc : List Recommendation),
      r ∈ issues.foldl flattenIssue acc →
      r ∈ acc ∨ ∃ i ∈ issues, ∃ a ∈ i.recommended_actions, ∃ n,
        r = recOfAction i n a := by
  intro issues
  induction issues with
  | nil => exact fun acc h => Or.inl h
  | cons i rest ih =>
      intro acc h
      simp only [List.foldl_cons] at h
      rcases ih (flattenIssue acc i) h with h2 | h2
      · rw [flattenIssue] at h2
        rcases flattenIssue_mem i r i.recommended_actions acc h2 with h3 | h3
        · exact Or.inl h3
        · rcases h3 with ⟨a, ha, n, hr⟩
          exact Or.inr ⟨i, List.mem_cons_self i rest, a, ha, n, hr⟩
      · rcases h2 with ⟨j, hj, a, ha, n, hr⟩
        exact Or.inr ⟨j, List.mem_cons_of_mem i hj, a, ha, n, hr⟩

/-- The Python slice `l[:k]` is a sublist of `l`. -/
theorem pyTake_sublist (l : List α) (k : ℤ) : List.Sublist (pyTake l k) l := by
  unfold pyTake
  split_ifs <;> exact List.take_sublist _ _

/-- Content of the inner flattening loop: one Recommendation per action,
in order, after whatever was already accumulated. -/
theorem flattenInner_map_proj (issue : Issue) :
    ∀ (actions : List RecommendedAction) (acc : List Recommendation),
      ((actions.foldl
          (fun acc2 a => acc2 ++ [recOfAction issue acc2.length a]) acc).map
        recProj)
        = acc.map recProj ++ actions.map (actionProj issue) := by
  intro actions
  induction actions with
  | nil => intro acc; simp
  | cons a rest ih =>
      intro acc
      simp only [List.foldl_cons, List.map_cons]
      rw [ih]
      simp [recProj, recOfAction, actionProj]

/-- Content of the whole flattening loop: exactly one Recommendation per
recommended action of each issue, in order. -/
theorem flattenRecs_map_proj_aux :
    ∀ (issues : List Issue) (acc : List Recommendation),
      ((issues.foldl flattenIssue acc).map recProj)
        = acc.map recProj ++
          (issues.map
            (fun i => i.recommended_actions.map (actionProj i))).flatten := by
  intro issues
  induction issues with
  | nil => intro acc; simp
  | cons i rest ih =>
      intro acc
      simp only [List.foldl_cons, List.map_cons, List.flatten_cons]
      rw [ih, flattenIssue, flattenInner_map_proj]
      simp [List.append_assoc]

/-! ### Claim theorems for the recommender -/

/-- Claim C5 (amended): recommend flattens each recommended action of
each Issue into exactly one Recommendation, in order — the flattened
list has the per-action contents (priority from the fixed severity
table, unknown severities to 4; action text; confidence; reasoning) and
one entry per action — the output is the truncation to `limit` of a
sorted permutation of that complete flattened list, sorted
non-decreasing by priority with ties broken by non-increasing
confidence, and for every nonnegative limit at most `limit` entries are
returned. (For a negative limit the Python slice `[:limit]` drops
entries from the end instead, so the at-most-limit reading fails
there.) -/
theorem recommend_sorted_amended (issues : List Issue) (scope : String)
    (limit : ℤ) :
    ((flattenRecs issues).map recProj =
      (issues.map
        (fun i => i.recommended_actions.map (actionProj i))).flatten) ∧
    ((flattenRecs issues).length =
      (issues.map (fun i => i.recommended_actions.length)).sum) ∧
    (∃ sorted : List Recommendation,
      List.Perm sorted (flattenRecs issues) ∧
      sorted.Pairwise (fun r s => r.priority < s.priority ∨
        (r.priority = s.priority ∧ s.confidence ≤ r.confidence)) ∧
      generateRecommendations issues scope limit = pyTake sorted limit) ∧
    (∀ r ∈ generateRecommendations issues scope limit,
      ∃ i ∈ issues, ∃ a ∈ i.recommended_actions,
        r.priority = severityToPriority i.severity ∧
        r.action = a.action ∧ r.confidence = a.confidence ∧
        r.justification = a.reasoning) ∧
    (generateRecommendations issues scope limit).Pairwise
      (fun r s => r.priority < s.priority ∨
        (r.priority = s.priority ∧ s.confidence ≤ r.confidence)) ∧
    (0 ≤ limit →
      ((generateRecommendations issues scope limit).length : ℤ) ≤ limit) ∧
    (severityToPriority "critical" = 1 ∧ severityToPriority "high" = 2 ∧
      severityToPriority "medium" = 3 ∧ severityToPriority "low" = 4 ∧
      ∀ s, s ≠ "critical" → s ≠ "high" → s ≠ "medium" →
        severityToPriority s = 4) := by
  have hmapproj : (flattenRecs issues).map recProj =
      (issues.map
        (fun i => i.recommended_actions.map (actionProj i))).flatten := by
    rw [flattenRecs, flattenRecs_map_proj_aux issues []]
    simp
  have hsorted : (List.mergeSort (flattenRecs issues) recLe).Pairwise
      (fun a b => recLe a b) :=
    List.sorted_mergeSort recLe_trans recLe_total (flattenRecs issues)
  refine ⟨hmapproj, ?_, ?_, ?_, ?_, ?_, rfl, rfl, rfl, rfl, ?_⟩
  · calc (flattenRecs issues).length
        = ((flattenRecs issues).map recProj).length :=
          (List.length_map _ _).symm
      _ = (issues.map
            (fun i => i.recommended_actions.map (actionProj i))).flatten.length := by
          rw [hmapproj]
      _ = (issues.map (fun i => i.recommended_actions.length)).sum := by
          simp [List.length_flatten, Function.comp_def]
  · refine ⟨List.mergeSort (flattenRecs issues) recLe,
      List.mergeSort_perm _ _, ?_, rfl⟩
    exact hsorted.imp (fun h => (recLe_true_iff _ _).mp h)
  · intro r hr
    have hr2 : r ∈ List.mergeSort (flattenRecs issues) recLe :=
      (pyTake_sublist _ _).subset hr
    have hr3 : r ∈ flattenRecs issues := List.mem_mergeSort.mp hr2
    rw [flattenRecs] at hr3
    rcases flattenRecs_mem_aux r issues [] hr3 with h | ⟨i, hi, a, ha, n, hr4⟩
    · exact absurd h (List.not_mem_nil r)
    · subst hr4
      exact ⟨i, hi, a, ha, rfl, rfl, rfl, rfl⟩
  · have hsub : List.Sublist (generateRecommendations issues scope limit)
        (List.mergeSort (flattenRecs issues) recLe) := pyTake_sublist _ _
    exact (hsorted.sublist hsub).imp (fun h => (recLe_true_iff _ _).mp h)
  · intro hl
    unfold generateRecommendations pyTake
    rw [if_pos hl, List.length_take]
    have := Int.toNat_of_nonneg hl
    omega
  · intro s h1 h2 h3
    simp [severityToPriority, h1, h2, h3]

/-- Counterexample to C5 as stated, at limit −1: a single high Issue
flattens to two Recommendations, the Python slice `[:−1]` keeps exactly
one of them, and one entry is not at most −1 entries. -/
theorem recommend_limit_counterexample :
    (flattenRecs [mkHighIssue defaultThresholds [lineAt "L1" 92] "t"]).length
        = 2 ∧
    (generateRecommendations
        [mkHighIssue defaultThresholds [lineAt "L1" 92] "t"] "grid"
        (-1)).length = 1 ∧
    ¬ (((generateRecommendations
          [mkHighIssue defaultThresholds [lineAt "L1" 92] "t"] "grid"
          (-1)).length : ℤ) ≤ -1) := by
  have hflat : (flattenRecs
      [mkHighIssue defaultThresholds [lineAt "L1" 92] "t"]).length = 2 := by
    simp [flattenRecs, flattenIssue, mkHighIssue, generateActionsForOverload]
  have hlen : (generateRecommendations
      [mkHighIssue defaultThresholds [lineAt "L1" 92] "t"] "grid"
      (-1)).length = 1 := by
    unfold generateRecommendations pyTake
    rw [if_neg (by norm_num), List.length_take, List.length_mergeSort, hflat]
    rfl
  refine ⟨hflat, hlen, ?_⟩
  rw [hlen]
  norm_num

/-- Witness for C5 (amended) at one high Issue and the default limit 5. -/
theorem recommend_sorted_amended_witness :
    (0 ≤ (5 : ℤ)) ∧
    ((flattenRecs [mkHighIssue defaultThresholds [lineAt "L1" 92] "t"]).map
        recProj =
      ([mkHighIssue defaultThresholds [lineAt "L1" 92] "t"].map
        (fun i => i.recommended_actions.map (actionProj i))).flatten) ∧
    ((flattenRecs [mkHighIssue defaultThresholds [lineAt "L1" 92] "t"]).length
        = ([mkHighIssue defaultThresholds [lineAt "L1" 92] "t"].map
            (fun i => i.recommended_actions.length)).sum) ∧
    (∃ sorted : List Recommendation,
      List.Perm sorted
        (flattenRecs [mkHighIssue defaultThresholds [lineAt "L1" 92] "t"]) ∧
      sorted.Pairwise (fun r s => r.priority < s.priority ∨
        (r.priority = s.priority ∧ s.confidence ≤ r.confidence)) ∧
      generateRecommendations
        [mkHighIssue defaultThresholds [lineAt "L1" 92] "t"] "grid" 5
          = pyTake sorted 5) ∧
    (∀ r ∈ generateRecommendations
        [mkHighIssue defaultThresholds [lineAt "L1" 92] "t"] "grid" 5,
      ∃ i ∈ [mkHighIssue defaultThresholds [lineAt "L1" 92] "t"],
        ∃ a ∈ i.recommended_actions,
          r.priority = severityToPriority i.severity ∧
          r.action = a.action ∧ r.confidence = a.confidence ∧
          r.justification = a.reasoning) ∧
    (generateRecommendations
        [mkHighIssue defaultThresholds [lineAt "L1" 92] "t"] "grid"
        5).Pairwise
      (fun r s => r.priority < s.priority ∨
        (r.priority = s.priority ∧ s.confidence ≤ r.confidence)) ∧
    ((generateRecommendations
        [mkHighIssue defaultThresholds [lineAt "L1" 92] "t"] "grid"
        5).length : ℤ) ≤ 5 := by
  have h := recommend_sorted_amended
    [mkHighIssue defaultThresholds [lineAt "L1" 92] "t"] "grid" 5
  exact ⟨by norm_num, h.1, h.2.1, h.2.2.1, h.2.2.2.1, h.2.2.2.2.1,
    h.2.2.2.2.2.1 (by norm_num)⟩

end

end GridAgent
